import Mathlib

/-!
# Verification of the scpi-core transport and device layer

Shallow embedding of `src/scpi_core/transport.py`, `serial_transport.py`,
`device.py` and `errors.py`.  The physical medium (socket / serial port) is
modelled by explicit event scripts: each entry describes what the next
low-level I/O primitive call observes.  Operations are state-passing
functions returning `Except PyError α × State`, mirroring Python methods
that either return a value or raise an exception, possibly after mutating
the object.
-/

set_option autoImplicit false

namespace ScpiCore

/-- Exceptions raised by the library.  `errors.py` defines the three
`ScpiError` subclasses; `importError` models Python's built-in
`ImportError`, raised by `SerialTransport.__init__` when pyserial is
absent. -/
inductive PyError : Type where
  | scpiConnection (msg : String)
  | scpiTimeout (msg : String)
  | scpiProtocol (msg : String)
  | importError (msg : String)
deriving DecidableEq, Repr

/-- Discriminator: is this error a `ScpiConnectionError`? -/
def PyError.isConnection : PyError → Bool
  | .scpiConnection _ => true
  | _ => false

/-- Discriminator: is this error a `ScpiTimeoutError`? -/
def PyError.isTimeout : PyError → Bool
  | .scpiTimeout _ => true
  | _ => false

/-! ## Bytes and strings

Bytes are `Nat`s (values `< 256` on a real wire).  `decodeAscii` mirrors
`bytes.decode("ascii", errors="replace")`: bytes below 128 map to the
corresponding character, anything else to U+FFFD. -/

/-- ASCII bytes of a string (every character of the inputs we use is below
128, matching `str.encode("ascii")`). -/
def strToBytes (s : String) : List Nat :=
  s.data.map Char.toNat

/-- `bytes.decode("ascii", errors="replace")`. -/
def decodeAscii (bs : List Nat) : String :=
  ⟨bs.map (fun b => if b < 128 then Char.ofNat b else '�')⟩

/-- Python `str.isspace` characters in the ASCII range, as used by
`str.strip()` on ASCII text. -/
def isPySpace (c : Char) : Bool :=
  c = ' ' || c = '\t' || c = '\n' || c = '\r' || c = '\x0b' || c = '\x0c'

/-- Python `str.strip()`: drop leading and trailing whitespace. -/
def pyStrip (s : String) : String :=
  ⟨((s.data.dropWhile isPySpace).reverse.dropWhile isPySpace).reverse⟩

/-- Python `s.endswith(suffix)`: the suffix test. -/
def strEndsWith (s suffix : String) : Bool :=
  suffix.data.isSuffixOf s.data

/-- Python `s.startswith(p)`: the prefix test. -/
def strStartsWith (s p : String) : Bool :=
  p.data.isPrefixOf s.data

/-! ## TCP socket model

`RecvEvent` entries describe the kernel receive buffer over time: a
`chunk c` is data available to `recv` (`c = []` is the zero-length read
signalling that the peer closed the connection); `timedOut` is a
`socket.timeout`; `osError` an `OSError`.  `sockRecv n` models
`socket.recv(n)`: it delivers at most `n` bytes of the front chunk,
pushing the remainder back. -/

inductive RecvEvent : Type where
  | chunk (data : List Nat)
  | timedOut
  | osError (msg : String)
deriving DecidableEq, Repr

inductive RecvResult : Type where
  | bytes (data : List Nat) (rest : List RecvEvent)
  | timedOut (rest : List RecvEvent)
  | osErr (msg : String) (rest : List RecvEvent)
deriving DecidableEq, Repr

/-- `socket.recv(n)`.  An exhausted script means no more data ever
arrives; since every socket here has a finite timeout configured, the
blocking call then raises `socket.timeout`. -/
def sockRecv (n : Nat) : List RecvEvent → RecvResult
  | [] => .timedOut []
  | .timedOut :: rest => .timedOut rest
  | .osError m :: rest => .osErr m rest
  | .chunk c :: rest =>
    if c.length ≤ n then .bytes c rest
    else .bytes (c.take n) (.chunk (c.drop n) :: rest)

/-- Outcome of the internal read loops (`_read_until_newline`,
`_read_bytes`). -/
inductive ReadOutcome : Type where
  | done (bytes : List Nat) (rest : List RecvEvent)
  | closed (rest : List RecvEvent)
  | timedOut (rest : List RecvEvent)
  | osErr (msg : String) (rest : List RecvEvent)
deriving DecidableEq, Repr

/-- Termination measure: events plus buffered bytes. -/
def evsMeasure : List RecvEvent → Nat
  | [] => 0
  | .chunk c :: rest => 1 + c.length + evsMeasure rest
  | .timedOut :: rest => 1 + evsMeasure rest
  | .osError _ :: rest => 1 + evsMeasure rest

/-- `TcpTransport._read_until_newline`, fuelled: repeatedly `recv(4096)`,
extend the buffer, stop once a newline byte (10) is present in the
buffer; a zero-length read raises `ScpiConnectionError("Connection
closed by instrument")`, modelled by the `closed` outcome.  `fuel`
bounds the number of `recv` calls; every delivered chunk consumes at
least one unit of `evsMeasure`, so starting with `evsMeasure evs + 1`
the fuel-out branch (which mirrors the empty-script timeout) is never
taken. -/
def tcpReadUntilNewlineAux (fuel : Nat) (buf : List Nat)
    (evs : List RecvEvent) : ReadOutcome :=
  match fuel with
  | 0 => .timedOut evs
  | fuel + 1 =>
    match sockRecv 4096 evs with
    | .timedOut rest => .timedOut rest
    | .osErr m rest => .osErr m rest
    | .bytes [] rest => .closed rest
    | .bytes (b :: bs) rest =>
      if 10 ∈ buf ++ b :: bs then .done (buf ++ b :: bs) rest
      else tcpReadUntilNewlineAux fuel (buf ++ b :: bs) rest

/-- `TcpTransport._read_until_newline`. -/
def tcpReadUntilNewline (buf : List Nat) (evs : List RecvEvent) :
    ReadOutcome :=
  tcpReadUntilNewlineAux (evsMeasure evs + 1) buf evs

/-- `TcpTransport._read_bytes`, fuelled: accumulate until `count` bytes
are collected, requesting `min(count - len(buf), 65536)` each round. -/
def tcpReadBytesAux (fuel : Nat) (count : Nat) (buf : List Nat)
    (evs : List RecvEvent) : ReadOutcome :=
  match fuel with
  | 0 => .timedOut evs
  | fuel + 1 =>
    if count ≤ buf.length then .done buf evs
    else
      match sockRecv (min (count - buf.length) 65536) evs with
      | .timedOut rest => .timedOut rest
      | .osErr m rest => .osErr m rest
      | .bytes [] rest => .closed rest
      | .bytes (b :: bs) rest => tcpReadBytesAux fuel count (buf ++ b :: bs) rest

/-- `TcpTransport._read_bytes`. -/
def tcpReadBytes (count : Nat) (buf : List Nat) (evs : List RecvEvent) :
    ReadOutcome :=
  tcpReadBytesAux (evsMeasure evs + 1) count buf evs

/-! ## TCP transport (`transport.py`, class `TcpTransport`) -/

/-- The open socket held in `TcpTransport._socket`, together with the
event script of its medium and a log of everything written to it.
`sent` records the string payloads passed to `sendall` by `send`;
`sentRaw` the byte payloads passed by `send_raw`. -/
structure TcpSocket : Type where
  timeoutVal : Nat
  recvScript : List RecvEvent
  sent : List String
  sentRaw : List (List Nat)
deriving DecidableEq, Repr

/-- `TcpTransport`: configuration plus the optional socket handle. -/
structure TcpTransport : Type where
  host : String
  port : Nat
  timeoutVal : Nat
  socket : Option TcpSocket
deriving DecidableEq, Repr

/-- `TcpTransport(host, port, timeout)`: freshly constructed, no socket. -/
def TcpTransport.init (host : String) (port : Nat) (timeoutVal : Nat) :
    TcpTransport :=
  { host := host, port := port, timeoutVal := timeoutVal, socket := none }

/-- `TcpTransport.is_connected`: `self._socket is not None`. -/
def TcpTransport.is_connected (t : TcpTransport) : Bool :=
  t.socket.isSome

/-- What the environment does when `connect` actually opens a socket:
success (with the medium script the new socket will see), a
`socket.timeout`, or an `OSError`. -/
inductive TcpConnectOutcome : Type where
  | ok (recvScript : List RecvEvent)
  | timedOut
  | osError (msg : String)
deriving DecidableEq, Repr

/-- `TcpTransport.connect`: no-op when a socket is already present;
otherwise opens a socket with the configured timeout, converting
`socket.timeout` / `OSError` into `ScpiConnectionError`.  On failure the
assignment `self._socket = sock` is never reached. -/
def TcpTransport.connect (t : TcpTransport) (env : TcpConnectOutcome) :
    Except PyError Unit × TcpTransport :=
  match t.socket with
  | some _ => (.ok (), t)
  | none =>
    match env with
    | .ok script =>
      (.ok (), { t with socket := some { timeoutVal := t.timeoutVal,
                                         recvScript := script,
                                         sent := [], sentRaw := [] } })
    | .timedOut =>
      (.error (.scpiConnection
        ("Timeout connecting to " ++ t.host ++ ":" ++ toString t.port)), t)
    | .osError m =>
      (.error (.scpiConnection
        ("Cannot connect to " ++ t.host ++ ":" ++ toString t.port ++ ": " ++ m)), t)

/-- `TcpTransport.disconnect`: close (errors swallowed) and null the
handle; no-op when already disconnected. -/
def TcpTransport.disconnect (t : TcpTransport) : TcpTransport :=
  match t.socket with
  | none => t
  | some _ => { t with socket := none }

/-- The timeout setter: updates the configuration and, when a socket is
open, pushes the new value to it via `settimeout`. -/
def TcpTransport.setTimeout (t : TcpTransport) (v : Nat) : TcpTransport :=
  { t with timeoutVal := v,
           socket := t.socket.map (fun s => { s with timeoutVal := v }) }

/-- Result of one `sendall` call, decided by the environment. -/
inductive SendEvent : Type where
  | ok
  | timedOut
  | osError (msg : String)
deriving DecidableEq, Repr

/-- `TcpTransport.send`: raise if not connected; append a newline unless
the text already ends with one; `sendall` the payload.  `socket.timeout`
becomes `ScpiTimeoutError` (socket kept); `OSError` nulls the socket and
becomes `ScpiConnectionError`. -/
def TcpTransport.send (t : TcpTransport) (data : String) (ev : SendEvent) :
    Except PyError Unit × TcpTransport :=
  match t.socket with
  | none => (.error (.scpiConnection "Not connected"), t)
  | some sock =>
    let payload := if strEndsWith data "\n" then data else data ++ "\n"
    match ev with
    | .ok => (.ok (), { t with socket := some { sock with sent := sock.sent ++ [payload] } })
    | .timedOut => (.error (.scpiTimeout ("Timeout sending: " ++ data)), t)
    | .osError m =>
      (.error (.scpiConnection ("Send failed: " ++ m)), { t with socket := none })

/-- `TcpTransport.send_raw`: like `send` but the bytes go out verbatim. -/
def TcpTransport.send_raw (t : TcpTransport) (data : List Nat)
    (ev : SendEvent) : Except PyError Unit × TcpTransport :=
  match t.socket with
  | none => (.error (.scpiConnection "Not connected"), t)
  | some sock =>
    match ev with
    | .ok =>
      (.ok (), { t with socket := some { sock with sentRaw := sock.sentRaw ++ [data] } })
    | .timedOut => (.error (.scpiTimeout "Timeout sending raw data"), t)
    | .osError m =>
      (.error (.scpiConnection ("Raw send failed: " ++ m)), { t with socket := none })

/-- `TcpTransport.receive` (the `timeout=None` case; a per-call override
only saves and restores the socket timeout and is orthogonal to the data
path): run `_read_until_newline`, then `.strip()` the decoded text.
`socket.timeout` becomes `ScpiTimeoutError`; `OSError` nulls the socket
and becomes `ScpiConnectionError("Receive failed: ...")`.  The
`ScpiConnectionError("Connection closed by instrument")` raised inside
`_read_until_newline` on a zero-length read is *not* an `OSError`, so it
propagates past the `except OSError` clause and the socket is kept. -/
def TcpTransport.receive (t : TcpTransport) :
    Except PyError String × TcpTransport :=
  match t.socket with
  | none => (.error (.scpiConnection "Not connected"), t)
  | some sock =>
    match tcpReadUntilNewline [] sock.recvScript with
    | .done bytes rest =>
      (.ok (pyStrip (decodeAscii bytes)),
       { t with socket := some { sock with recvScript := rest } })
    | .closed rest =>
      (.error (.scpiConnection "Connection closed by instrument"),
       { t with socket := some { sock with recvScript := rest } })
    | .timedOut rest =>
      (.error (.scpiTimeout "Timeout waiting for response"),
       { t with socket := some { sock with recvScript := rest } })
    | .osErr m _ =>
      (.error (.scpiConnection ("Receive failed: " ++ m)),
       { t with socket := none })

/-- `TcpTransport.receive_raw` (again the `timeout=None` case): run
`_read_bytes(count)`.  As in `receive`, only `socket.timeout` and
`OSError` are caught; the `closed` outcome keeps the socket. -/
def TcpTransport.receive_raw (t : TcpTransport) (count : Nat) :
    Except PyError (List Nat) × TcpTransport :=
  match t.socket with
  | none => (.error (.scpiConnection "Not connected"), t)
  | some sock =>
    match tcpReadBytes count [] sock.recvScript with
    | .done bytes rest =>
      (.ok bytes, { t with socket := some { sock with recvScript := rest } })
    | .closed rest =>
      (.error (.scpiConnection "Connection closed by instrument"),
       { t with socket := some { sock with recvScript := rest } })
    | .timedOut rest =>
      (.error (.scpiTimeout ("Timeout reading " ++ toString count ++ " raw bytes")),
       { t with socket := some { sock with recvScript := rest } })
    | .osErr m _ =>
      (.error (.scpiConnection ("Raw receive failed: " ++ m)),
       { t with socket := none })

/-! ## Serial transport (`serial_transport.py`, class `SerialTransport`)

pyserial calls are modelled per invocation: each `read`/`readline`
consumes one `SerialReadEvent` from the handle's script, each `write`
outcome is supplied as a `SerialWriteEvent`.  `serial.read(count)`
returns at most `count` of the available bytes (short on timeout), hence
the `take` in `receive_raw`. -/

inductive SerialReadEvent : Type where
  | data (bytes : List Nat)
  | serialErr (msg : String)
deriving DecidableEq, Repr

inductive SerialWriteEvent : Type where
  | ok
  | serialErr (msg : String)
deriving DecidableEq, Repr

/-- The `serial.Serial` object held in `SerialTransport._serial`.
`is_open` is pyserial's port-open flag: set when `Serial(port=...)`
opens the port, cleared only by `close()`. -/
structure SerialHandle : Type where
  is_open : Bool
  timeoutVal : Nat
  readScript : List SerialReadEvent
  written : List String
  writtenRaw : List (List Nat)
deriving DecidableEq, Repr

/-- `SerialTransport`: configuration plus optional handle. -/
structure SerialTransport : Type where
  port : String
  baudrate : Nat
  timeoutVal : Nat
  terminator : String
  handle : Option SerialHandle
deriving DecidableEq, Repr

/-- `SerialTransport.__init__`: raises `ImportError` when the pyserial
driver is absent; otherwise records the configuration with a null
handle.  `serialAvailable` models whether `import serial` succeeded at
module load. -/
def SerialTransport.mkNew (serialAvailable : Bool) (port : String)
    (baudrate : Nat) (timeoutVal : Nat) (terminator : String) :
    Except PyError SerialTransport :=
  if serialAvailable then
    .ok { port := port, baudrate := baudrate, timeoutVal := timeoutVal,
          terminator := terminator, handle := none }
  else
    .error (.importError
      ("pyserial is required for SerialTransport. " ++
       "Install with: pip install pyscpi[serial]"))

/-- `SerialTransport.is_connected`:
`self._serial is not None and self._serial.is_open`. -/
def SerialTransport.is_connected (t : SerialTransport) : Bool :=
  match t.handle with
  | none => false
  | some h => h.is_open

/-- Environment outcome of `serial.Serial(port=..., ...)`. -/
inductive SerialConnectOutcome : Type where
  | ok (readScript : List SerialReadEvent)
  | serialErr (msg : String)
deriving DecidableEq, Repr

/-- `SerialTransport.connect`: no-op when a handle is already present;
otherwise open the port (which sets `is_open`), converting
`SerialException` into `ScpiConnectionError`. -/
def SerialTransport.connect (t : SerialTransport)
    (env : SerialConnectOutcome) : Except PyError Unit × SerialTransport :=
  match t.handle with
  | some _ => (.ok (), t)
  | none =>
    match env with
    | .ok script =>
      (.ok (), { t with handle := some { is_open := true,
                                         timeoutVal := t.timeoutVal,
                                         readScript := script,
                                         written := [], writtenRaw := [] } })
    | .serialErr m =>
      (.error (.scpiConnection
        ("Cannot open serial port " ++ t.port ++ ": " ++ m)), t)

/-- `SerialTransport.disconnect`: close (errors swallowed) and null the
handle; no-op when already disconnected. -/
def SerialTransport.disconnect (t : SerialTransport) : SerialTransport :=
  match t.handle with
  | none => t
  | some _ => { t with handle := none }

/-- The timeout setter. -/
def SerialTransport.setTimeout (t : SerialTransport) (v : Nat) :
    SerialTransport :=
  { t with timeoutVal := v,
           handle := t.handle.map (fun h => { h with timeoutVal := v }) }

/-- `SerialTransport.send`: raise if not connected; append the configured
terminator unless the text already ends with it; `write` the payload.
`SerialException` becomes `ScpiConnectionError` — note the handle is
*not* nulled on failure. -/
def SerialTransport.send (t : SerialTransport) (data : String)
    (ev : SerialWriteEvent) : Except PyError Unit × SerialTransport :=
  match t.handle with
  | none => (.error (.scpiConnection "Not connected"), t)
  | some h =>
    let payload := if strEndsWith data t.terminator then data
                   else data ++ t.terminator
    match ev with
    | .ok =>
      (.ok (), { t with handle := some { h with written := h.written ++ [payload] } })
    | .serialErr m =>
      (.error (.scpiConnection ("Serial write failed: " ++ m)), t)

/-- `SerialTransport.send_raw`. -/
def SerialTransport.send_raw (t : SerialTransport) (data : List Nat)
    (ev : SerialWriteEvent) : Except PyError Unit × SerialTransport :=
  match t.handle with
  | none => (.error (.scpiConnection "Not connected"), t)
  | some h =>
    match ev with
    | .ok =>
      (.ok (), { t with handle := some { h with writtenRaw := h.writtenRaw ++ [data] } })
    | .serialErr m =>
      (.error (.scpiConnection ("Serial raw write failed: " ++ m)), t)

/-- `SerialTransport.receive` (the `timeout=None` case): `readline`; an
empty result (deadline passed with no data — also the case of an
exhausted script) raises `ScpiTimeoutError`; otherwise decode and
`.strip()`.  `SerialException` becomes `ScpiConnectionError`; the handle
is never nulled. -/
def SerialTransport.receive (t : SerialTransport) :
    Except PyError String × SerialTransport :=
  match t.handle with
  | none => (.error (.scpiConnection "Not connected"), t)
  | some h =>
    match h.readScript with
    | [] =>
      (.error (.scpiTimeout "No response from serial instrument"), t)
    | .data [] :: rest =>
      (.error (.scpiTimeout "No response from serial instrument"),
       { t with handle := some { h with readScript := rest } })
    | .data (b :: bs) :: rest =>
      (.ok (pyStrip (decodeAscii (b :: bs))),
       { t with handle := some { h with readScript := rest } })
    | .serialErr m :: rest =>
      (.error (.scpiConnection ("Serial read failed: " ++ m)),
       { t with handle := some { h with readScript := rest } })

/-- `SerialTransport.receive_raw` (the `timeout=None` case):
`serial.read(count)` returns at most `count` bytes; a short result
raises `ScpiTimeoutError` naming expected versus obtained counts.
`SerialException` becomes `ScpiConnectionError`; the handle is never
nulled. -/
def SerialTransport.receive_raw (t : SerialTransport) (count : Nat) :
    Except PyError (List Nat) × SerialTransport :=
  match t.handle with
  | none => (.error (.scpiConnection "Not connected"), t)
  | some h =>
    match h.readScript with
    | [] =>
      if 0 < count then
        (.error (.scpiTimeout
          ("Serial read: expected " ++ toString count ++ " bytes, got 0")), t)
      else (.ok [], t)
    | .data bs :: rest =>
      let d := bs.take count
      if d.length < count then
        (.error (.scpiTimeout
          ("Serial read: expected " ++ toString count ++ " bytes, got " ++
           toString d.length)),
         { t with handle := some { h with readScript := rest } })
      else
        (.ok d, { t with handle := some { h with readScript := rest } })
    | .serialErr m :: rest =>
      (.error (.scpiConnection ("Serial raw read failed: " ++ m)),
       { t with handle := some { h with readScript := rest } })

/-- `SerialTransport.flush_input`: `reset_input_buffer` discards unread
buffered input; a no-op when disconnected. -/
def SerialTransport.flush_input (t : SerialTransport) : SerialTransport :=
  match t.handle with
  | none => t
  | some h => { t with handle := some { h with readScript := [] } }

/-! ## Device facade (`device.py`, class `ScpiDevice`)

Only the piece the claims need: the `:SYST:ERR?` response
classification performed by `check_error` (lines 118–120). -/

/-- `ScpiDevice.check_error` applied to the response text of
`:SYST:ERR?`: `None` when the response starts with `"0,"` or `"+0,"`,
otherwise the response itself, unparsed. -/
def checkErrorClassify (resp : String) : Option String :=
  if strStartsWith resp "0," || strStartsWith resp "+0," then none
  else some resp

/-! ## States reachable through the public operations -/

/-- One public operation on a `TcpTransport`, viewed as a state
transition (the environment chooses the outcome arguments). -/
inductive TcpStep : TcpTransport → TcpTransport → Prop where
  | connect (t : TcpTransport) (env : TcpConnectOutcome) :
      TcpStep t (t.connect env).2
  | disconnect (t : TcpTransport) : TcpStep t t.disconnect
  | setTimeout (t : TcpTransport) (v : Nat) : TcpStep t (t.setTimeout v)
  | send (t : TcpTransport) (data : String) (ev : SendEvent) :
      TcpStep t (t.send data ev).2
  | sendRaw (t : TcpTransport) (data : List Nat) (ev : SendEvent) :
      TcpStep t (t.send_raw data ev).2
  | receive (t : TcpTransport) : TcpStep t t.receive.2
  | receiveRaw (t : TcpTransport) (n : Nat) : TcpStep t (t.receive_raw n).2

/-- TCP transport states reachable from construction by any sequence of
public operations. -/
def TcpReachable (t : TcpTransport) : Prop :=
  ∃ host port timeoutVal,
    Relation.ReflTransGen TcpStep (TcpTransport.init host port timeoutVal) t

/-- One public operation on a `SerialTransport`. -/
inductive SerialStep : SerialTransport → SerialTransport → Prop where
  | connect (t : SerialTransport) (env : SerialConnectOutcome) :
      SerialStep t (t.connect env).2
  | disconnect (t : SerialTransport) : SerialStep t t.disconnect
  | setTimeout (t : SerialTransport) (v : Nat) : SerialStep t (t.setTimeout v)
  | send (t : SerialTransport) (data : String) (ev : SerialWriteEvent) :
      SerialStep t (t.send data ev).2
  | sendRaw (t : SerialTransport) (data : List Nat) (ev : SerialWriteEvent) :
      SerialStep t (t.send_raw data ev).2
  | receive (t : SerialTransport) : SerialStep t t.receive.2
  | receiveRaw (t : SerialTransport) (n : Nat) : SerialStep t (t.receive_raw n).2
  | flushInput (t : SerialTransport) : SerialStep t t.flush_input

/-- Serial transport states reachable from a successful construction by
any sequence of public operations. -/
def SerialReachable (t : SerialTransport) : Prop :=
  ∃ port baudrate timeoutVal terminator t0,
    SerialTransport.mkNew true port baudrate timeoutVal terminator = .ok t0 ∧
    Relation.ReflTransGen SerialStep t0 t

/-- The handle, when present, is an open port (pyserial only clears
`is_open` in `close()`, which the code always follows by nulling the
handle). -/
def SerialTransport.handleOpen (t : SerialTransport) : Prop :=
  ∀ h : SerialHandle, t.handle = some h → h.is_open = true

/-! ## Concrete fixtures used by witnesses and counterexamples -/

/-- A freshly opened socket about to observe `script`. -/
def demoSocket (script : List RecvEvent) : TcpSocket :=
  { timeoutVal := 5, recvScript := script, sent := [], sentRaw := [] }

/-- A connected TCP transport about to observe `script`. -/
def demoTcp (script : List RecvEvent) : TcpTransport :=
  { host := "127.0.0.1", port := 5555, timeoutVal := 5,
    socket := some (demoSocket script) }

/-- A disconnected TCP transport. -/
def demoTcpClosed : TcpTransport :=
  { host := "127.0.0.1", port := 5555, timeoutVal := 5, socket := none }

/-- A freshly opened serial port about to observe `script`. -/
def demoHandle (script : List SerialReadEvent) : SerialHandle :=
  { is_open := true, timeoutVal := 5, readScript := script,
    written := [], writtenRaw := [] }

/-- A connected serial transport about to observe `script`. -/
def demoSerial (script : List SerialReadEvent) : SerialTransport :=
  { port := "/dev/ttyUSB0", baudrate := 115200, timeoutVal := 5,
    terminator := "\n", handle := some (demoHandle script) }

/-- A disconnected serial transport. -/
def demoSerialClosed : SerialTransport :=
  { port := "/dev/ttyUSB0", baudrate := 115200, timeoutVal := 5,
    terminator := "\n", handle := none }

/-! ## General lemmas about the read loops -/

theorem sockRecv_bytes_length {n : Nat} {evs : List RecvEvent}
    {d : List Nat} {rest : List RecvEvent}
    (h : sockRecv n evs = .bytes d rest) : d.length ≤ n := by
  match evs with
  | [] => simp [sockRecv] at h
  | .timedOut :: tail => simp [sockRecv] at h
  | .osError m :: tail => simp [sockRecv] at h
  | .chunk c :: tail =>
    rw [sockRecv] at h
    by_cases hc : c.length ≤ n
    · rw [if_pos hc] at h
      injection h with h1 _
      rw [← h1]
      exact hc
    · rw [if_neg hc] at h
      injection h with h1 _
      rw [← h1]
      simp [List.length_take]

theorem tcpReadBytesAux_done_length {count : Nat} :
    ∀ (fuel : Nat) (buf : List Nat) (evs : List RecvEvent)
      (out : List Nat) (rest : List RecvEvent), buf.length ≤ count →
      tcpReadBytesAux fuel count buf evs = .done out rest →
      out.length = count := by
  intro fuel
  induction fuel with
  | zero =>
    intro buf evs out rest _ h
    simp [tcpReadBytesAux] at h
  | succ fuel ih =>
    intro buf evs out rest hb h
    rw [tcpReadBytesAux] at h
    by_cases hle : count ≤ buf.length
    · rw [if_pos hle] at h
      injection h with h1 _
      rw [← h1]
      omega
    · rw [if_neg hle] at h
      split at h
      · exact absurd h (by simp)
      · exact absurd h (by simp)
      · exact absurd h (by simp)
      · rename_i b bs rest2 heq
        have hlen : (b :: bs).length ≤ min (count - buf.length) 65536 :=
          sockRecv_bytes_length heq
        have hb2 : (buf ++ b :: bs).length ≤ count := by
          rw [List.length_append]
          omega
        exact ih (buf ++ b :: bs) rest2 out rest hb2 h

theorem tcpReadBytes_done_length {count : Nat} {evs : List RecvEvent}
    {out : List Nat} {rest : List RecvEvent}
    (h : tcpReadBytes count [] evs = .done out rest) : out.length = count :=
  tcpReadBytesAux_done_length (evsMeasure evs + 1) [] evs out rest
    (by simp) h

theorem tcpReadUntilNewlineAux_done_mem :
    ∀ (fuel : Nat) (buf : List Nat) (evs : List RecvEvent)
      (out : List Nat) (rest : List RecvEvent),
      tcpReadUntilNewlineAux fuel buf evs = .done out rest → 10 ∈ out := by
  intro fuel
  induction fuel with
  | zero =>
    intro buf evs out rest h
    simp [tcpReadUntilNewlineAux] at h
  | succ fuel ih =>
    intro buf evs out rest h
    rw [tcpReadUntilNewlineAux] at h
    split at h
    · exact absurd h (by simp)
    · exact absurd h (by simp)
    · exact absurd h (by simp)
    · rename_i b bs rest2 heq
      by_cases hmem : 10 ∈ buf ++ b :: bs
      · rw [if_pos hmem] at h
        injection h with h1 _
        rw [← h1]
        exact hmem
      · rw [if_neg hmem] at h
        exact ih (buf ++ b :: bs) rest2 out rest h

theorem tcpReadUntilNewline_single_chunk {c : List Nat}
    (hlen : c.length ≤ 4096) (hmem : 10 ∈ c) :
    tcpReadUntilNewline [] [.chunk c] = .done c [] := by
  obtain ⟨b, bs, rfl⟩ : ∃ b bs, c = b :: bs := by
    cases c with
    | nil => simp at hmem
    | cons b bs => exact ⟨b, bs, rfl⟩
  rw [tcpReadUntilNewline]
  simp only [evsMeasure]
  rw [tcpReadUntilNewlineAux]
  rw [sockRecv, if_pos hlen]
  simp only [List.nil_append]
  rw [if_pos hmem]

/-! ## Serial invariant: a present handle is an open port -/

theorem serialStep_handleOpen {t t' : SerialTransport}
    (hs : SerialStep t t') (hI : t.handleOpen) : t'.handleOpen := by
  cases hs with
  | connect env =>
    intro hh heq
    cases ht : t.handle with
    | some h0 =>
      simp only [SerialTransport.connect, ht] at heq
      exact hI hh (ht.trans heq)
    | none =>
      cases env with
      | ok script =>
        simp only [SerialTransport.connect, ht] at heq
        injection heq with heq2
        rw [← heq2]
      | serialErr m =>
        simp only [SerialTransport.connect, ht] at heq
        exact hI hh (ht.trans heq)
  | disconnect =>
    intro hh heq
    cases ht : t.handle with
    | some h0 => simp [SerialTransport.disconnect, ht] at heq
    | none =>
      simp only [SerialTransport.disconnect, ht] at heq
      exact hI hh (ht.trans heq)
  | setTimeout v =>
    intro hh heq
    cases ht : t.handle with
    | some h0 =>
      simp only [SerialTransport.setTimeout, ht, Option.map_some] at heq
      injection heq with heq2
      rw [← heq2]
      exact hI h0 ht
    | none => simp [SerialTransport.setTimeout, ht] at heq
  | send data ev =>
    intro hh heq
    cases ht : t.handle with
    | none =>
      simp only [SerialTransport.send, ht] at heq
      exact hI hh (ht.trans heq)
    | some h0 =>
      cases ev with
      | ok =>
        simp only [SerialTransport.send, ht] at heq
        injection heq with heq2
        rw [← heq2]
        exact hI h0 ht
      | serialErr m =>
        simp only [SerialTransport.send, ht] at heq
        exact hI hh (ht.trans heq)
  | sendRaw data ev =>
    intro hh heq
    cases ht : t.handle with
    | none =>
      simp only [SerialTransport.send_raw, ht] at heq
      exact hI hh (ht.trans heq)
    | some h0 =>
      cases ev with
      | ok =>
        simp only [SerialTransport.send_raw, ht] at heq
        injection heq with heq2
        rw [← heq2]
        exact hI h0 ht
      | serialErr m =>
        simp only [SerialTransport.send_raw, ht] at heq
        exact hI hh (ht.trans heq)
  | receive =>
    intro hh heq
    cases ht : t.handle with
    | none =>
      simp only [SerialTransport.receive, ht] at heq
      exact hI hh (ht.trans heq)
    | some h0 =>
      cases hr : h0.readScript with
      | nil =>
        simp only [SerialTransport.receive, ht, hr] at heq
        exact hI hh (ht.trans heq)
      | cons e rest =>
        cases e with
        | data bs =>
          cases bs with
          | nil =>
            simp only [SerialTransport.receive, ht, hr] at heq
            injection heq with heq2
            rw [← heq2]
            exact hI h0 ht
          | cons b bs2 =>
            simp only [SerialTransport.receive, ht, hr] at heq
            injection heq with heq2
            rw [← heq2]
            exact hI h0 ht
        | serialErr m =>
          simp only [SerialTransport.receive, ht, hr] at heq
          injection heq with heq2
          rw [← heq2]
          exact hI h0 ht
  | receiveRaw n =>
    intro hh heq
    cases ht : t.handle with
    | none =>
      simp only [SerialTransport.receive_raw, ht] at heq
      exact hI hh (ht.trans heq)
    | some h0 =>
      cases hr : h0.readScript with
      | nil =>
        by_cases hn : 0 < n
        · simp only [SerialTransport.receive_raw, ht, hr, if_pos hn] at heq
          exact hI hh (ht.trans heq)
        · simp only [SerialTransport.receive_raw, ht, hr, if_neg hn] at heq
          exact hI hh (ht.trans heq)
      | cons e rest =>
        cases e with
        | data bs =>
          by_cases hshort : (bs.take n).length < n
          · simp only [SerialTransport.receive_raw, ht, hr, if_pos hshort] at heq
            injection heq with heq2
            rw [← heq2]
            exact hI h0 ht
          · simp only [SerialTransport.receive_raw, ht, hr, if_neg hshort] at heq
            injection heq with heq2
            rw [← heq2]
            exact hI h0 ht
        | serialErr m =>
          simp only [SerialTransport.receive_raw, ht, hr] at heq
          injection heq with heq2
          rw [← heq2]
          exact hI h0 ht
  | flushInput =>
    intro hh heq
    cases ht : t.handle with
    | none =>
      simp only [SerialTransport.flush_input, ht] at heq
      exact hI hh (ht.trans heq)
    | some h0 =>
      simp only [SerialTransport.flush_input, ht] at heq
      injection heq with heq2
      rw [← heq2]
      exact hI h0 ht

theorem serialReachable_handleOpen {t : SerialTransport}
    (h : SerialReachable t) : t.handleOpen := by
  obtain ⟨p, b, tv, term, t0, h0, hsteps⟩ := h
  have ht0 : t0.handleOpen := by
    intro hh heq
    simp only [SerialTransport.mkNew, if_pos] at h0
    injection h0 with h0e
    rw [← h0e] at heq
    simp at heq
  induction hsteps with
  | refl => exact ht0
  | tail _ hstep ih => exact serialStep_handleOpen hstep ih

/-! ## Claim theorems -/

/-- C1: evaluation of `TcpTransport.receive` at the failing input.  On a
zero-length read (peer closed) the call does fail with
`ScpiConnectionError("Connection closed by instrument")`, but — because
that exception is not an `OSError`, so the `except OSError` handler that
nulls `self._socket` never runs — the handle is kept and
`is_connected()` still returns `true` immediately afterwards,
contradicting the claim's "the transport's handle is forced to null". -/
theorem C1_peer_close_keeps_handle :
    (TcpTransport.receive (demoTcp [.chunk []])).1
        = .error (.scpiConnection "Connection closed by instrument") ∧
    (TcpTransport.receive (demoTcp [.chunk []])).2.is_connected = true ∧
    (TcpTransport.receive (demoTcp [.chunk []])).2.socket ≠ none := by
  refine ⟨rfl, rfl, ?_⟩
  intro h
  simp [TcpTransport.receive, demoTcp, demoSocket, tcpReadUntilNewline,
    evsMeasure, tcpReadUntilNewlineAux, sockRecv] at h

/-- C2: evaluation of `SerialTransport.send` at the failing input.  A
write failure (`SerialException`) does convert to
`ScpiConnectionError`, but the serial transport keeps its handle —
`SerialTransport.send` has no code path that nulls `self._serial` — so
`is_connected()` still returns `true` afterwards, contradicting the
claim's "the transport drops to the disconnected state" (the TCP
transport does null its socket on a failed write; the serial one does
not). -/
theorem C2_serial_write_failure_keeps_handle :
    (SerialTransport.send (demoSerial []) "CMD" (.serialErr "boom")).1
        = .error (.scpiConnection "Serial write failed: boom") ∧
    (SerialTransport.send (demoSerial []) "CMD" (.serialErr "boom")).2.is_connected
        = true ∧
    (SerialTransport.send (demoSerial []) "CMD" (.serialErr "boom")).2
        = demoSerial [] := by
  exact ⟨rfl, rfl, rfl⟩

/-- C6 counterexample: constructing a `SerialTransport` without the
pyserial driver raises `ImportError`, which is not a connection error,
refuting "fails with a connection error". -/
theorem C6_counterexample_import_error :
    SerialTransport.mkNew false "COM1" 115200 5 "\n"
        = .error (.importError
            ("pyserial is required for SerialTransport. " ++
             "Install with: pip install pyscpi[serial]")) ∧
    PyError.isConnection (.importError
      ("pyserial is required for SerialTransport. " ++
       "Install with: pip install pyscpi[serial]")) = false := by
  exact ⟨rfl, rfl⟩

/-- C6 (amended): construction with the serial driver unavailable fails
eagerly, at construction time, with an `ImportError` carrying an
installation hint (not a deferred import failure — but also not a
connection error); with the driver available construction succeeds with
a null handle. -/
theorem C6_init_eager_import_error :
    ∀ (port : String) (baudrate timeoutVal : Nat) (terminator : String),
      SerialTransport.mkNew false port baudrate timeoutVal terminator
          = .error (.importError
              ("pyserial is required for SerialTransport. " ++
               "Install with: pip install pyscpi[serial]")) ∧
      SerialTransport.mkNew true port baudrate timeoutVal terminator
          = .ok { port := port, baudrate := baudrate,
                  timeoutVal := timeoutVal, terminator := terminator,
                  handle := none } := by
  intro port baudrate timeoutVal terminator
  exact ⟨rfl, rfl⟩

/-- C9: `check_error` returns `None` exactly when the `:SYST:ERR?`
response starts with `"0,"` or `"+0,"`, and otherwise returns the
literal response unchanged; in particular it is absent for
`"0,No error"` and the unchanged string for `"-100,Command error"`. -/
theorem C9_check_error_classification :
    ∀ r : String,
      (checkErrorClassify r = none
          ↔ (strStartsWith r "0," || strStartsWith r "+0,") = true) ∧
      (checkErrorClassify r = some r
          ↔ (strStartsWith r "0," || strStartsWith r "+0,") = false) ∧
      checkErrorClassify "0,No error" = none ∧
      checkErrorClassify "-100,Command error" = some "-100,Command error" := by
  intro r
  refine ⟨?_, ?_, by decide, by decide⟩
  · unfold checkErrorClassify
    by_cases hc : (strStartsWith r "0," || strStartsWith r "+0,") = true
    · simp [hc]
    · simp [hc]
  · unfold checkErrorClassify
    by_cases hc : (strStartsWith r "0," || strStartsWith r "+0,") = true
    · simp [hc]
    · simp [hc]

/-- C3: in every transport state reachable through the public
operations, the internal handle is non-null exactly when
`is_connected()` returns true — definitionally for TCP, and for serial
because every reachable handle is an open port. -/
theorem C3_handle_iff_connected :
    (∀ t : TcpTransport, TcpReachable t →
        (t.is_connected = true ↔ t.socket ≠ none)) ∧
    (∀ t : SerialTransport, SerialReachable t →
        (t.is_connected = true ↔ t.handle ≠ none)) := by
  constructor
  · intro t _
    cases h : t.socket with
    | none => simp [TcpTransport.is_connected, h]
    | some s => simp [TcpTransport.is_connected, h]
  · intro t hr
    have hinv := serialReachable_handleOpen hr
    cases h : t.handle with
    | none => simp [SerialTransport.is_connected, h]
    | some hd => simp [SerialTransport.is_connected, h, hinv hd h]

/-- C3 witness: the invariant instantiated at a fresh TCP transport, a
fresh serial transport, and a serial transport that has just connected. -/
theorem C3_handle_iff_connected_witness :
    ((TcpTransport.init "127.0.0.1" 5555 5).is_connected = true
        ↔ (TcpTransport.init "127.0.0.1" 5555 5).socket ≠ none) ∧
    (demoSerialClosed.is_connected = true ↔ demoSerialClosed.handle ≠ none) ∧
    ((demoSerial []).is_connected = true ↔ (demoSerial []).handle ≠ none) := by
  refine ⟨C3_handle_iff_connected.1 _
    ⟨"127.0.0.1", 5555, 5, Relation.ReflTransGen.refl⟩,
    C3_handle_iff_connected.2 _
    ⟨"/dev/ttyUSB0", 115200, 5, "\n", demoSerialClosed, rfl,
      Relation.ReflTransGen.refl⟩,
    C3_handle_iff_connected.2 _
    ⟨"/dev/ttyUSB0", 115200, 5, "\n", demoSerialClosed, rfl,
      Relation.ReflTransGen.single ?_⟩⟩
  exact SerialStep.connect demoSerialClosed (SerialConnectOutcome.ok [])

/-- C7: for a connected transport, `send(s)` writes exactly
`s ++ terminator` when `s` does not already end with the terminator, and
exactly `s` unchanged when it does — for TCP (fixed `"\n"`) and serial
(configured terminator) alike — and the call succeeds. -/
theorem C7_send_appends_terminator :
    (∀ (t : TcpTransport) (sock : TcpSocket) (data : String),
        t.socket = some sock →
        (strEndsWith data "\n" = false →
          t.send data .ok = (.ok (),
            { t with
                socket := some { sock with sent := sock.sent ++ [data ++ "\n"] } })) ∧
        (strEndsWith data "\n" = true →
          t.send data .ok = (.ok (),
            { t with
                socket := some { sock with sent := sock.sent ++ [data] } }))) ∧
    (∀ (t : SerialTransport) (h : SerialHandle) (data : String),
        t.handle = some h →
        (strEndsWith data t.terminator = false →
          t.send data .ok = (.ok (),
            { t with
                handle := some { h with written := h.written ++ [data ++ t.terminator] } })) ∧
        (strEndsWith data t.terminator = true →
          t.send data .ok = (.ok (),
            { t with
                handle := some { h with written := h.written ++ [data] } }))) := by
  constructor
  · intro t sock data ht
    constructor
    · intro he
      simp [TcpTransport.send, ht, he]
    · intro he
      simp [TcpTransport.send, ht, he]
  · intro t h data ht
    constructor
    · intro he
      simp [SerialTransport.send, ht, he]
    · intro he
      simp [SerialTransport.send, ht, he]

/-- C7 witness: `"*IDN?"` gets one newline appended; `"*RST\n"` is
written unchanged. -/
theorem C7_send_appends_terminator_witness :
    TcpTransport.send (demoTcp []) "*IDN?" .ok
        = (.ok (), { host := "127.0.0.1", port := 5555, timeoutVal := 5,
                     socket := some { timeoutVal := 5, recvScript := [],
                                      sent := ["*IDN?\n"], sentRaw := [] } }) ∧
    SerialTransport.send (demoSerial []) "*RST\n" .ok
        = (.ok (), { port := "/dev/ttyUSB0", baudrate := 115200,
                     timeoutVal := 5, terminator := "\n",
                     handle := some { is_open := true, timeoutVal := 5,
                                      readScript := [], written := ["*RST\n"],
                                      writtenRaw := [] } }) := by
  constructor
  · have h1 := (C7_send_appends_terminator.1 (demoTcp []) (demoSocket [])
      "*IDN?" rfl).1 (by decide)
    exact h1.trans (by rfl)
  · have h2 := (C7_send_appends_terminator.2 (demoSerial []) (demoHandle [])
      "*RST\n" rfl).2 (by decide)
    exact h2.trans (by rfl)

/-- C8: `connect` on a transport that already holds a handle is a no-op
returning success; `disconnect` on a disconnected transport is a no-op;
a second `connect` after a successful one changes nothing; `disconnect`
is idempotent — for both transports, and `disconnect` never raises by
construction (it returns only a state). -/
theorem C8_connect_disconnect_idempotent :
    (∀ (t : TcpTransport) (env : TcpConnectOutcome),
        t.is_connected = true → t.connect env = (.ok (), t)) ∧
    (∀ t : TcpTransport, t.is_connected = false → t.disconnect = t) ∧
    (∀ (t : TcpTransport) (e1 e2 : TcpConnectOutcome),
        (t.connect e1).1 = .ok () →
        ((t.connect e1).2).connect e2 = (.ok (), (t.connect e1).2)) ∧
    (∀ t : TcpTransport, t.disconnect.disconnect = t.disconnect) ∧
    (∀ (t : SerialTransport) (env : SerialConnectOutcome),
        t.handle.isSome = true → t.connect env = (.ok (), t)) ∧
    (∀ t : SerialTransport, t.handle = none → t.disconnect = t) ∧
    (∀ (t : SerialTransport) (e1 e2 : SerialConnectOutcome),
        (t.connect e1).1 = .ok () →
        ((t.connect e1).2).connect e2 = (.ok (), (t.connect e1).2)) ∧
    (∀ t : SerialTransport, t.disconnect.disconnect = t.disconnect) := by
  refine ⟨?_, ?_, ?_, ?_, ?_, ?_, ?_, ?_⟩
  · intro t env h
    cases hs : t.socket with
    | none => simp [TcpTransport.is_connected, hs] at h
    | some s => simp [TcpTransport.connect, hs]
  · intro t h
    cases hs : t.socket with
    | none => simp [TcpTransport.disconnect, hs]
    | some s => simp [TcpTransport.is_connected, hs] at h
  · intro t e1 e2 h
    cases hs : t.socket with
    | some s => simp [TcpTransport.connect, hs]
    | none =>
      cases e1 with
      | ok script => simp [TcpTransport.connect, hs]
      | timedOut => simp [TcpTransport.connect, hs] at h
      | osError m => simp [TcpTransport.connect, hs] at h
  · intro t
    cases hs : t.socket with
    | none => simp [TcpTransport.disconnect, hs]
    | some s => simp [TcpTransport.disconnect, hs]
  · intro t env h
    cases hs : t.handle with
    | none => simp [hs] at h
    | some hd => simp [SerialTransport.connect, hs]
  · intro t h
    simp [SerialTransport.disconnect, h]
  · intro t e1 e2 h
    cases hs : t.handle with
    | some hd => simp [SerialTransport.connect, hs]
    | none =>
      cases e1 with
      | ok script => simp [SerialTransport.connect, hs]
      | serialErr m => simp [SerialTransport.connect, hs] at h
  · intro t
    cases hs : t.handle with
    | none => simp [SerialTransport.disconnect, hs]
    | some hd => simp [SerialTransport.disconnect, hs]

/-- C8 witness: the idempotence properties at concrete transports. -/
theorem C8_connect_disconnect_idempotent_witness :
    TcpTransport.connect (demoTcp []) .timedOut = (.ok (), demoTcp []) ∧
    TcpTransport.disconnect demoTcpClosed = demoTcpClosed ∧
    ((demoTcpClosed.connect (.ok [])).2).connect .timedOut
        = (.ok (), (demoTcpClosed.connect (.ok [])).2) ∧
    (demoTcp []).disconnect.disconnect = (demoTcp []).disconnect ∧
    SerialTransport.connect (demoSerial []) (.serialErr "busy")
        = (.ok (), demoSerial []) ∧
    SerialTransport.disconnect demoSerialClosed = demoSerialClosed ∧
    ((demoSerialClosed.connect (.ok [])).2).connect (.serialErr "busy")
        = (.ok (), (demoSerialClosed.connect (.ok [])).2) ∧
    (demoSerial []).disconnect.disconnect = (demoSerial []).disconnect :=
  ⟨C8_connect_disconnect_idempotent.1 _ _ rfl,
   C8_connect_disconnect_idempotent.2.1 _ rfl,
   C8_connect_disconnect_idempotent.2.2.1 _ _ _ rfl,
   C8_connect_disconnect_idempotent.2.2.2.1 _,
   C8_connect_disconnect_idempotent.2.2.2.2.1 _ _ rfl,
   C8_connect_disconnect_idempotent.2.2.2.2.2.1 _ rfl,
   C8_connect_disconnect_idempotent.2.2.2.2.2.2.1 _ _ _ rfl,
   C8_connect_disconnect_idempotent.2.2.2.2.2.2.2 _⟩

/-- C10: when `connect()` fails (it can only fail on a disconnected
transport), the observable state is unchanged: the same record is
returned, the handle was and remains absent, and `is_connected()` is
still false — for both transports. -/
theorem C10_failed_connect_leaves_state :
    (∀ (t : TcpTransport) (env : TcpConnectOutcome) (err : PyError),
        (t.connect env).1 = .error err →
        (t.connect env).2 = t ∧ t.socket = none ∧
        (t.connect env).2.is_connected = false) ∧
    (∀ (t : SerialTransport) (env : SerialConnectOutcome) (err : PyError),
        (t.connect env).1 = .error err →
        (t.connect env).2 = t ∧ t.handle = none ∧
        (t.connect env).2.is_connected = false) := by
  constructor
  · intro t env err h
    cases hs : t.socket with
    | some s => simp [TcpTransport.connect, hs] at h
    | none =>
      cases env with
      | ok script => simp [TcpTransport.connect, hs] at h
      | timedOut =>
        refine ⟨by simp [TcpTransport.connect, hs], rfl, ?_⟩
        simp [TcpTransport.connect, hs, TcpTransport.is_connected]
      | osError m =>
        refine ⟨by simp [TcpTransport.connect, hs], rfl, ?_⟩
        simp [TcpTransport.connect, hs, TcpTransport.is_connected]
  · intro t env err h
    cases hs : t.handle with
    | some hd => simp [SerialTransport.connect, hs] at h
    | none =>
      cases env with
      | ok script => simp [SerialTransport.connect, hs] at h
      | serialErr m =>
        refine ⟨by simp [SerialTransport.connect, hs], rfl, ?_⟩
        simp [SerialTransport.connect, hs, SerialTransport.is_connected]

/-- C10 witness: a refused TCP connect and a busy serial port leave the
fresh transports unchanged and disconnected. -/
theorem C10_failed_connect_leaves_state_witness :
    ((demoTcpClosed.connect .timedOut).2 = demoTcpClosed ∧
      demoTcpClosed.socket = none ∧
      (demoTcpClosed.connect .timedOut).2.is_connected = false) ∧
    ((demoSerialClosed.connect (.serialErr "busy")).2 = demoSerialClosed ∧
      demoSerialClosed.handle = none ∧
      (demoSerialClosed.connect (.serialErr "busy")).2.is_connected = false) :=
  ⟨C10_failed_connect_leaves_state.1 demoTcpClosed .timedOut
      (.scpiConnection "Timeout connecting to 127.0.0.1:5555") rfl,
   C10_failed_connect_leaves_state.2 demoSerialClosed (.serialErr "busy")
      (.scpiConnection "Cannot open serial port /dev/ttyUSB0: busy") rfl⟩

/-- C4 counterexample: the TCP `receive_raw` timeout message is
`"Timeout reading 5 raw bytes"` whether 3 bytes or 0 bytes had been
obtained — the same message for different obtained counts — so it does
not report "how many bytes were actually obtained versus requested" as
the claim states. -/
theorem C4_counterexample_tcp_timeout_message :
    (TcpTransport.receive_raw (demoTcp [.chunk [1, 2, 3]]) 5).1
        = .error (.scpiTimeout "Timeout reading 5 raw bytes") ∧
    (TcpTransport.receive_raw (demoTcp []) 5).1
        = .error (.scpiTimeout "Timeout reading 5 raw bytes") := by
  exact ⟨rfl, rfl⟩

/-- C4 (amended): `receive_raw(n)` never returns a short read silently —
whenever it returns bytes it returns exactly `n` of them, on both
transports.  On deadline expiry the serial transport raises a timeout
error reporting obtained versus requested counts, while the TCP
transport's timeout error names only the requested count (and a peer
close or I/O fault raises a connection error instead). -/
theorem C4_receive_raw_exact :
    (∀ (t : TcpTransport) (n : Nat) (out : List Nat) (t2 : TcpTransport),
        t.receive_raw n = (.ok out, t2) → out.length = n) ∧
    (∀ (s : SerialTransport) (n : Nat) (out : List Nat)
        (s2 : SerialTransport),
        s.receive_raw n = (.ok out, s2) → out.length = n) ∧
    (∀ (s : SerialTransport) (h : SerialHandle) (bs : List Nat)
        (rest : List SerialReadEvent) (n : Nat),
        s.handle = some h → h.readScript = .data bs :: rest →
        bs.length < n →
        (s.receive_raw n).1 = .error (.scpiTimeout
          ("Serial read: expected " ++ toString n ++ " bytes, got " ++
           toString bs.length))) := by
  refine ⟨?_, ?_, ?_⟩
  · intro t n out t2 h
    cases hs : t.socket with
    | none => simp [TcpTransport.receive_raw, hs] at h
    | some sock =>
      simp only [TcpTransport.receive_raw, hs] at h
      split at h
      · rename_i bytes rest heq
        have h1 := congrArg Prod.fst h
        injection h1 with h2
        rw [← h2]
        exact tcpReadBytes_done_length heq
      · exact absurd (congrArg Prod.fst h) (by simp)
      · exact absurd (congrArg Prod.fst h) (by simp)
      · exact absurd (congrArg Prod.fst h) (by simp)
  · intro s n out s2 h
    cases hs : s.handle with
    | none => simp [SerialTransport.receive_raw, hs] at h
    | some h0 =>
      simp only [SerialTransport.receive_raw, hs] at h
      split at h
      · by_cases hn : 0 < n
        · rw [if_pos hn] at h
          exact absurd (congrArg Prod.fst h) (by simp)
        · rw [if_neg hn] at h
          have h1 := congrArg Prod.fst h
          injection h1 with h2
          rw [← h2]
          simp
          omega
      · rename_i bs rest heq
        by_cases hshort : (bs.take n).length < n
        · rw [if_pos hshort] at h
          exact absurd (congrArg Prod.fst h) (by simp)
        · rw [if_neg hshort] at h
          have h1 := congrArg Prod.fst h
          injection h1 with h2
          rw [← h2]
          rw [List.length_take] at hshort ⊢
          omega
      · rename_i m rest heq
        exact absurd (congrArg Prod.fst h) (by simp)
  · intro s h0 bs rest n hs hr hlt
    have htake : (bs.take n).length = bs.length := by
      rw [List.length_take]
      omega
    have hcond : (bs.take n).length < n := by
      rw [htake]
      exact hlt
    simp only [SerialTransport.receive_raw, hs, hr, if_pos hcond, htake]
    rw [if_pos hlt]

/-- C4 witness: exact reads of 2 bytes (TCP) and 1 byte (serial), and a
serial short read of 1 obtained out of 3 requested reporting both
counts. -/
theorem C4_receive_raw_exact_witness :
    ([7, 8] : List Nat).length = 2 ∧
    ([3] : List Nat).length = 1 ∧
    (SerialTransport.receive_raw (demoSerial [.data [9]]) 3).1
        = .error (.scpiTimeout
            ("Serial read: expected " ++ toString 3 ++ " bytes, got " ++
             toString ([9] : List Nat).length)) := by
  refine ⟨?_, ?_, ?_⟩
  · exact C4_receive_raw_exact.1 (demoTcp [.chunk [7, 8]]) 2 [7, 8]
      (demoTcp []) (by rfl)
  · exact C4_receive_raw_exact.2.1 (demoSerial [.data [3]]) 1 [3]
      (demoSerial []) (by rfl)
  · exact C4_receive_raw_exact.2.2 (demoSerial [.data [9]])
      (demoHandle [.data [9]]) [9] [] 3 rfl rfl (by decide)

/-- C5 counterexample: with wire bytes `"REPLY\nEXTRA"` arriving in one
chunk, `receive()` returns `"REPLY\nEXTRA"` — the bytes after the first
terminator are part of the returned text (only leading/trailing
whitespace is stripped), not `"REPLY"` as the claim requires. -/
theorem C5_counterexample_extra_bytes_returned :
    (TcpTransport.receive (demoTcp [.chunk (strToBytes "REPLY\nEXTRA")])).1
        = .ok "REPLY\nEXTRA" ∧
    ("REPLY\nEXTRA" : String) ≠ "REPLY" := by
  exact ⟨rfl, by decide⟩

/-- C5 (amended): `receive()` accumulates bytes until a terminator byte
is present in the buffer (every returned buffer contains one), then
returns the *entire* accumulated buffer — including any bytes that
followed the first terminator in the same chunk — stripped of leading
and trailing whitespace (which removes the trailing terminator); for
wire bytes `"REPLY\n"` it returns `"REPLY"`. -/
theorem C5_receive_line_behavior :
    (∀ (fuel : Nat) (buf : List Nat) (evs : List RecvEvent)
        (out : List Nat) (rest : List RecvEvent),
        tcpReadUntilNewlineAux fuel buf evs = .done out rest → 10 ∈ out) ∧
    (∀ (t : TcpTransport) (sock : TcpSocket) (c : List Nat),
        t.socket = some sock → sock.recvScript = [.chunk c] →
        c.length ≤ 4096 → 10 ∈ c →
        (t.receive).1 = .ok (pyStrip (decodeAscii c))) ∧
    (TcpTransport.receive (demoTcp [.chunk (strToBytes "REPLY\n")])).1
        = .ok "REPLY" := by
  refine ⟨tcpReadUntilNewlineAux_done_mem, ?_, by rfl⟩
  intro t sock c hs hr hlen hmem
  have hread : tcpReadUntilNewline [] sock.recvScript = .done c [] := by
    rw [hr]
    exact tcpReadUntilNewline_single_chunk hlen hmem
  simp only [TcpTransport.receive, hs, hread]

/-- C5 witness: a buffer returned by the read loop contains the
terminator, and a one-chunk response `[82, 10]` (`"R\n"`) is returned
decoded and stripped. -/
theorem C5_receive_line_behavior_witness :
    (10 ∈ ([10] : List Nat)) ∧
    (TcpTransport.receive (demoTcp [.chunk [82, 10]])).1
        = .ok (pyStrip (decodeAscii [82, 10])) :=
  ⟨C5_receive_line_behavior.1 2 [] [.chunk [10]] [10] [] (by rfl),
   C5_receive_line_behavior.2.1 (demoTcp [.chunk [82, 10]])
     (demoSocket [.chunk [82, 10]]) [82, 10] rfl rfl (by decide) (by decide)⟩

end ScpiCore
